import Mathlib

/-!
Verification development for the trends-story pipeline.

The Python sources are embedded shallowly:
* `sanitize_filename` (creating-stories.py) as a pipeline of list transformations;
* `call_api_with_retry` / `ws_send_prompt` (creating-stories.py) as explicit
  loops over per-attempt outcome oracles;
* the SQLite candidate-selection query and the `create_stories` loop as
  functions over an explicit database state;
* `generate_sitemap`'s merge as a fold over association lists;
* `check_lockfile` / `remove_lockfile` / `main` (run_and_sync.py) as state
  transformers over an abstract lock state;
* `perform_git_operations` (run_and_sync.py) as a function of per-step
  outcomes recording its observable effects.
-/

namespace TrendsStory

/-! ### sanitize_filename (creating-stories.py, lines 54-67) -/

/-- The character class of the regex `[<>:"/\\|?*]` used by `sanitize_filename`. -/
def invalidChars : List Char := ['<', '>', ':', '"', '/', '\\', '|', '?', '*']

/-- `re.sub(r'[<>:"/\\|?*]', '', filename)`: delete every invalid character. -/
def removeInvalid (l : List Char) : List Char :=
  l.filter (fun c => !invalidChars.contains c)

/-- `sanitized.replace(' ', '-')`: every space character becomes a hyphen.
Only `' '` is replaced; other whitespace (tab, newline) is untouched. -/
def spacesToHyphens (l : List Char) : List Char :=
  l.map (fun c => if c = ' ' then '-' else c)

/-- `re.sub(r'-+', '-', sanitized)`: collapse each run of hyphens to one. -/
def collapseHyphens : List Char → List Char
  | [] => []
  | [c] => [c]
  | a :: b :: t =>
    if a = '-' && b = '-' then collapseHyphens (b :: t)
    else a :: collapseHyphens (b :: t)

/-- `sanitized.strip('-')`: drop leading and trailing hyphens. -/
def stripHyphens (l : List Char) : List Char :=
  (((l.dropWhile (· = '-')).reverse.dropWhile (· = '-'))).reverse

/-- `sanitize_filename` from creating-stories.py: remove invalid characters,
replace spaces with hyphens, collapse hyphen runs, strip edge hyphens, and
truncate to 100 characters (`[:100]`). -/
def sanitize_filename (s : String) : String :=
  String.mk ((stripHyphens (collapseHyphens (spacesToHyphens (removeInvalid s.data)))).take 100)

/-- No two adjacent hyphens. -/
def NoHyphenRun (l : List Char) : Prop :=
  l.Chain' (fun a b => ¬(a = '-' ∧ b = '-'))

/-! ### ws_send_prompt / call_api_with_retry (creating-stories.py, lines 230-297) -/

/-- `MAX_RETRIES = 4` (creating-stories.py, line 25). -/
def MAX_RETRIES : Nat := 4

/-- One message received on the websocket, as `ws_send_prompt` classifies it:
a parsed `{type:"result", data:{Ok:{content}}}` message, a parsed `result`
message without an `Ok` key (an `Err` result: the loop keeps listening), or
anything else (progress messages, unparseable JSON: skipped). -/
inductive WsMsg where
  | resultOk (content : String)
  | resultErr
  | other
deriving DecidableEq, Repr

/-- How one websocket attempt's stream terminates: a connection closure
(`websockets.exceptions.ConnectionClosed`, swallowed by its handler), or some
other transport exception carrying a message. -/
inductive StreamEnd where
  | closed
  | transport (e : String)
deriving DecidableEq, Repr

/-- The observable behaviour of the external service during one attempt:
the messages delivered before the stream ends, and how it ends. -/
structure WsAttempt where
  msgs : List WsMsg
  ending : StreamEnd
deriving DecidableEq, Repr

/-- The `async for` loop of `ws_send_prompt`: the first `result` message with
an `Ok` payload, if any, sets `response_content` and breaks. -/
def firstOk : List WsMsg → Option String
  | [] => none
  | WsMsg.resultOk c :: _ => some c
  | WsMsg.resultErr :: rest => firstOk rest
  | WsMsg.other :: rest => firstOk rest

/-- `ws_send_prompt` (creating-stories.py, lines 230-274): return the first
`Ok` content if one arrives; otherwise a connection closure is swallowed and
the trailing `response_content is None` check raises
"No valid response content received", while any other transport exception is
re-raised as-is. Either way the attempt ends in an exception. -/
def ws_send_prompt (a : WsAttempt) : Except String String :=
  match firstOk a.msgs with
  | some c => Except.ok c
  | none =>
    match a.ending with
    | StreamEnd.closed => Except.error "No valid response content received"
    | StreamEnd.transport e => Except.error e

/-- The per-attempt outcome as the retry loop can observe it: the content on
success, `none` on any exception (of whichever kind). -/
def attemptOutcome (a : WsAttempt) : Option String :=
  match ws_send_prompt a with
  | Except.ok c => some c
  | Except.error _ => none

/-- The retry loop of `call_api_with_retry` (creating-stories.py, lines
281-297), starting from attempt index `start` with `fuel` attempts left.
Returns the story (or `None` after exhaustion) and the number of attempts
actually performed. -/
def runAttempts (att : Nat → WsAttempt) : Nat → Nat → Option String × Nat
  | _, 0 => (none, 0)
  | start, fuel + 1 =>
    match ws_send_prompt (att start) with
    | Except.ok c => (some c, 1)
    | Except.error _ =>
      let r := runAttempts att (start + 1) fuel
      (r.1, r.2 + 1)

/-- `call_api_with_retry` (creating-stories.py, lines 276-297): up to
`MAX_RETRIES` attempts, every raised exception caught and retried uniformly. -/
def call_api_with_retry (att : Nat → WsAttempt) : Option String × Nat :=
  runAttempts att 0 MAX_RETRIES

/-- The wait scheduled after a failed attempt (0-indexed), from the code
`if attempt < MAX_RETRIES - 1: (if attempt < 3: sleep(5) else: sleep(300))`
(creating-stories.py, lines 288-294). -/
def waitAfterAttempt (attempt : Nat) : Option Nat :=
  if attempt < MAX_RETRIES - 1 then
    (if attempt < 3 then some 5 else some 300)
  else none

/-- Total scheduled wait, in seconds, over a fully exhausted request. -/
def totalWaitOnExhaustion : Nat :=
  ((List.range MAX_RETRIES).filterMap waitAfterAttempt).sum

/-! ### The record store (create_db.py) -/

/-- A row of `serpapi_data` (the fields the selection query touches, plus the
prompt-building fields). -/
structure SerpRow where
  id : Nat
  query : String
  categories : String
  trend_breakdown : String
  date : String
deriving DecidableEq, Repr

/-- A row of `main_news_data`. -/
structure NewsRow where
  id : Nat
  news : String
  date : String
  serpapi_id : Nat
  image_id : Option Nat
deriving DecidableEq, Repr

/-- A row of `image_data`. -/
structure ImageRow where
  id : Nat
  file_name : String
deriving DecidableEq, Repr

/-- The `trends_data.db` state. -/
structure DB where
  serpapi_data : List SerpRow
  main_news_data : List NewsRow
  image_data : List ImageRow
deriving DecidableEq, Repr

/-- Primary keys are unique (INTEGER PRIMARY KEY AUTOINCREMENT). -/
def DB.WellFormed (db : DB) : Prop :=
  (db.serpapi_data.map SerpRow.id).Nodup ∧ (db.main_news_data.map NewsRow.id).Nodup

instance (db : DB) : Decidable db.WellFormed :=
  inferInstanceAs (Decidable
    ((db.serpapi_data.map SerpRow.id).Nodup ∧ (db.main_news_data.map NewsRow.id).Nodup))

/-! ### The candidate-selection query (creating-stories.py, lines 360-400) -/

/-- `NUM_STORIES_TO_CREATE = 20` (creating-stories.py, line 26). -/
def NUM_STORIES_TO_CREATE : Nat := 20

/-- `SELECT date FROM serpapi_data ORDER BY id DESC LIMIT 1`: the row with the
greatest id (ids are unique). -/
def lastInsertedRow (db : DB) : Option SerpRow :=
  db.serpapi_data.foldl
    (fun acc r =>
      match acc with
      | none => some r
      | some a => if a.id < r.id then some r else acc)
    none

/-- `last_date.split(' ')[0]`: the date part of a `'YYYY-MM-DD HH:MM:SS'`
timestamp — the characters before the first space. -/
def dateOnly (s : String) : String :=
  String.mk (s.data.takeWhile (fun c => c ≠ ' '))

/-- The rows of the current batch that survive the category filter:
`WHERE date = ? AND categories != '17-Sports'` (the subquery's WHERE). -/
def batchRows (db : DB) (d : String) : List SerpRow :=
  db.serpapi_data.filter (fun r => r.date == d && r.categories != "17-Sports")

/-- `SELECT MIN(id) FROM serpapi_data WHERE date = ? AND categories !=
'17-Sports' GROUP BY query`: one minimal id per distinct query of the
filtered batch. -/
def minIdsPerQuery (db : DB) (d : String) : List Nat :=
  (((batchRows db d).map SerpRow.query).dedup).filterMap
    (fun q => (((batchRows db d).filter (fun r => r.query == q)).map SerpRow.id).min?)

/-- Condition 4 of the query: a narrative already exists, joined through
`serpapi_data`, for the same query with `SUBSTR(mnd.date, 1, 10)` equal to
the batch day. -/
def narratedToday (db : DB) (dOnly : String) (q : String) : Bool :=
  db.main_news_data.any (fun n =>
    db.serpapi_data.any (fun sj =>
      n.serpapi_id == sj.id && sj.query == q && String.mk (n.date.data.take 10) == dOnly))

/-- The full WHERE clause of the selection query for a row `sd`, given the
latest batch timestamp `d` and its date part `dOnly`. -/
def selectionPred (db : DB) (d dOnly : String) (sd : SerpRow) : Bool :=
  sd.date == d && sd.categories != "17-Sports" &&
    (minIdsPerQuery db d).contains sd.id &&
    !narratedToday db dOnly sd.query

/-- The candidate-selection query of `create_stories` (creating-stories.py,
lines 374-400): filter, order by id ascending, limit to
`NUM_STORIES_TO_CREATE`.  When the store has no topic at all, `last_date` is
`None` and `sd.date = NULL` matches no row. -/
def selectTopics (db : DB) : List SerpRow :=
  match lastInsertedRow db with
  | none => []
  | some lrow =>
    (((db.serpapi_data.filter
          (selectionPred db lrow.date (dateOnly lrow.date))).insertionSort
        (fun a b => a.id ≤ b.id)).take NUM_STORIES_TO_CREATE)

/-! ### The create_stories loop (creating-stories.py, lines 405-450) -/

/-- The outcomes of the external calls made for one topic, supplied as
oracles: the narrative returned by `call_api_with_retry` on the story prompt
(`none` when the prompt was empty or every attempt failed), the image-prompt
text returned by the second `call_api_with_retry` (given the story text),
the filename returned by `create_image` (`None` on any of its internal
failures), and the timestamp `save_story_to_database` stamps. -/
structure Oracles where
  story : SerpRow → Option String
  imagePrompts : SerpRow → String → Option String
  imageFile : SerpRow → String → Option String
  now : String

/-- `INSERT INTO image_data (file_name) VALUES (?)` with a fresh autoincrement
id, returning `cursor.lastrowid`. -/
def insertImage (db : DB) (fn : String) : DB × Nat :=
  let iid := ((db.image_data.map ImageRow.id).foldl max 0) + 1
  ({ db with image_data := db.image_data ++ [⟨iid, fn⟩] }, iid)

/-- `INSERT INTO main_news_data (news, date, serpapi_id, image_id)` with a
fresh autoincrement id. -/
def insertNews (db : DB) (story now : String) (sid : Nat) (iid : Option Nat) : DB :=
  { db with
    main_news_data :=
      db.main_news_data ++
        [⟨((db.main_news_data.map NewsRow.id).foldl max 0) + 1, story, now, sid, iid⟩] }

/-- The generation steps for one topic that passed the existence check
(creating-stories.py, lines 421-448).  Returns the updated database and
`some message` when an uncaught exception aborts the run:
* a story of `None` makes line 424's string concatenation raise `TypeError`;
* falsy image prompts hit the explicit `raise` of line 443;
* otherwise the image (if `create_image` returned a truthy filename) and then
  the narrative (if the story text is truthy) are inserted.

The image-creation block (creating-stories.py, lines 430-441) comes first:
when `create_image` returned a truthy filename, insert the image row and keep
its id; otherwise `image_id` stays `None`. -/
def imageStep (o : Oracles) (row : SerpRow) (ip : String) (db : DB) : DB × Option Nat :=
  match o.imageFile row ip with
  | some fn =>
    if fn = "" then (db, none)
    else
      let q := insertImage db fn
      (q.1, some q.2)
  | none => (db, none)

def stepTopic (o : Oracles) (row : SerpRow) (db : DB) : DB × Option String :=
  match o.story row with
  | none => (db, some "TypeError: can only concatenate str to str")
  | some st =>
    match o.imagePrompts row st with
    | none => (db, some ("No image prompts generated for serpapi_id " ++ toString row.id))
    | some ip =>
      if ip = "" then
        (db, some ("No image prompts generated for serpapi_id " ++ toString row.id))
      else
        let p := imageStep o row ip db
        ((if st = "" then p.1 else insertNews p.1 st o.now row.id p.2), none)

/-- The `for row in rows` loop of `create_stories` (creating-stories.py,
lines 407-448): skip a topic that already has a narrative
(`SELECT id FROM main_news_data WHERE serpapi_id = ?`), otherwise run the
generation steps; an uncaught exception ends the run with the database as it
stands. -/
def processRows (o : Oracles) : List SerpRow → DB → DB × Option String
  | [], db => (db, none)
  | row :: rest, db =>
    if db.main_news_data.any (fun n => n.serpapi_id == row.id) then
      processRows o rest db
    else
      match stepTopic o row db with
      | (db1, some e) => (db1, some e)
      | (db1, none) => processRows o rest db1

/-- `create_stories` (creating-stories.py, lines 350-457): run the selection
query, then the per-topic loop. -/
def create_stories (o : Oracles) (db : DB) : DB × Option String :=
  processRows o (selectTopics db) db

/-! ### The sitemap merge (creating-stories.py, lines 461-600) -/

/-- Split a character list at each `'-'` (the behaviour of `split('-')` for a
one-character separator). -/
def splitOnDash : List Char → List (List Char)
  | [] => [[]]
  | c :: cs =>
    if c = '-' then [] :: splitOnDash cs
    else
      match splitOnDash cs with
      | [] => [[c]]
      | h :: t => (c :: h) :: t

/-- A nonempty all-digit character list as a number. -/
def digitsToNat? (l : List Char) : Option Nat :=
  if !l.isEmpty && l.all Char.isDigit then
    some (l.foldl (fun acc c => acc * 10 + (c.toNat - 48)) 0)
  else none

/-- `datetime.strptime(s, '%Y-%m-%d')`, reduced to what the merge needs:
three dash-separated decimal fields with the month in 1..12 and the day in
1..31 (full day-of-month validation never matters for the canonical
`YYYY-MM-DD` strings the program reads and writes). -/
def parseDateYMD (s : String) : Option (Nat × Nat × Nat) :=
  match splitOnDash s.data with
  | [y, m, d] =>
    match digitsToNat? y, digitsToNat? m, digitsToNat? d with
    | some yn, some mn, some dn =>
      if 1 ≤ mn && mn ≤ 12 && 1 ≤ dn && dn ≤ 31 then some (yn, mn, dn) else none
    | _, _, _ => none
  | _ => none

/-- Chronological comparison of parsed dates (`db_date > existing_date`). -/
def dateLtB : Nat × Nat × Nat → Nat × Nat × Nat → Bool
  | (y1, m1, d1), (y2, m2, d2) =>
    y1 < y2 || (y1 == y2 && (m1 < m2 || (m1 == m2 && d1 < d2)))

/-- Python truthiness of `existing_lastmod` (`None` and `''` are falsy). -/
def truthyOpt : Option String → Bool
  | some s => s ≠ ""
  | none => false

/-- Dictionary lookup on the association-list model of a Python dict. -/
def lookupUrl (m : List (String × Option String)) (k : String) : Option (Option String) :=
  (m.find? (fun p => p.1 == k)).map Prod.snd

/-- Assignment to an existing key of a Python dict (position kept). -/
def updateUrl (m : List (String × Option String)) (k : String) (v : Option String) :
    List (String × Option String) :=
  m.map (fun p => if p.1 == k then (k, v) else p)

/-- One iteration of the `for url, db_lastmod in db_urls.items()` merge loop
(creating-stories.py, lines 522-543).  `db_lastmod` comes from `strftime` and
is always truthy, so `if existing_lastmod and db_lastmod` reduces to the
truthiness of the existing value. -/
def mergeStep (m : List (String × Option String)) (kv : String × String) :
    List (String × Option String) :=
  match lookupUrl m kv.1 with
  | some existingLastmod =>
    if truthyOpt existingLastmod then
      match existingLastmod with
      | some ex =>
        match parseDateYMD ex, parseDateYMD kv.2 with
        | some de, some dd =>
          if dateLtB de dd then updateUrl m kv.1 (some kv.2) else m
        | _, _ => updateUrl m kv.1 (some kv.2)
      | none => updateUrl m kv.1 (some kv.2)
    else updateUrl m kv.1 (some kv.2)
  | none => m ++ [(kv.1, some kv.2)]

/-- The merge of `generate_sitemap`: start from the parsed existing sitemap
(homepage already excluded by the parse loop) and fold the database mapping
into it. -/
def mergeUrls (existing : List (String × Option String)) (dbUrls : List (String × String)) :
    List (String × Option String) :=
  dbUrls.foldl mergeStep existing

/-- The sort key extraction `re.search(r'/date/(\d{8})$', url)` of
`generate_sitemap` (lines 563-573): the 8-digit suffix when the URL ends in
`/date/` followed by exactly 8 digits, else the sentinel `'99999999'`. -/
def dateKey (url : String) : String :=
  let d := url.data
  let tl := d.drop (d.length - 8)
  let pre := d.take (d.length - 8)
  if tl.length == 8 && tl.all Char.isDigit && List.isSuffixOf "/date/".data pre then
    String.mk tl
  else "99999999"

/-- Code-point comparison of strings as character lists (Python's `<` on
`str`). -/
def charListLe : List Char → List Char → Bool
  | [], _ => true
  | _ :: _, [] => false
  | a :: as', b :: bs => if a = b then charListLe as' bs else decide (a < b)

/-- The rendered entry list of the generated sitemap: the homepage first with
the current date, then the merged entries sorted by `dateKey` (a stable sort,
like Python's `list.sort`), each falsy lastmod replaced by the current date
(line 583). -/
def sitemapEntries (merged : List (String × Option String)) (currentDate : String) :
    List (String × String) :=
  ("https://trending.oopus.info/", currentDate) ::
    (((merged.map (fun p => (dateKey p.1, p))).insertionSort
        (fun a b => charListLe a.1.data b.1.data = true)).map
      (fun t =>
        (t.2.1,
         match t.2.2 with
         | some s => if s ≠ "" then s else currentDate
         | none => currentDate)))

/-! ### The run supervisor (run_and_sync.py) -/

/-- `LOCKFILE_STALE_MINUTES = 30` (run_and_sync.py, line 47). -/
def LOCKFILE_STALE_MINUTES : Nat := 30

def EXIT_SUCCESS : Nat := 0
def EXIT_CONFIG_ERROR : Nat := 1
def EXIT_SCRIPT_FAILURE : Nat := 2
def EXIT_GIT_FAILURE : Nat := 3

/-- The lock marker: `some mtime` (seconds) when `.run.lock` exists. -/
structure LockState where
  lockMtime : Option Nat
deriving DecidableEq, Repr

/-- `check_lockfile` (run_and_sync.py, lines 97-111): a marker strictly older
than the threshold is unlinked and the check passes; a younger one makes the
check fail without touching the marker; no marker passes.  The age test
`lock_age / 60 > LOCKFILE_STALE_MINUTES` is `now - mtime > 1800` seconds. -/
def check_lockfile (now : Nat) (st : LockState) : Bool × LockState :=
  match st.lockMtime with
  | some m =>
    if now - m > LOCKFILE_STALE_MINUTES * 60 then (true, ⟨none⟩)
    else (false, st)
  | none => (true, st)

/-- `create_lockfile` (lines 114-123): write the marker now. -/
def create_lockfile (now : Nat) (_ : LockState) : LockState :=
  ⟨some now⟩

/-- `remove_lockfile` (lines 126-133): unlink the marker if it exists. -/
def remove_lockfile (_ : LockState) : LockState :=
  ⟨none⟩

/-- The per-step success outcomes `perform_git_operations` depends on. -/
structure GitEnv where
  isRepo : Bool
  configUserOk : Bool
  configEmailOk : Bool
  remoteOk : Bool
  hasChanges : Bool
  commitOk : Bool
  fetchOk : Bool
  rebaseOk : Bool
  pushOk : Bool
deriving DecidableEq, Repr

/-- The observable outcome of `perform_git_operations`: its return value,
whether the step-7 commit of generated content was created and whether it is
still present locally on exit, whether a rebase was attempted, whether a
failed rebase was followed by `git rebase --abort`, and whether anything was
pushed. -/
structure GitResult where
  success : Bool
  commitMade : Bool
  commitRetained : Bool
  rebaseAttempted : Bool
  rebaseAborted : Bool
  pushed : Bool
deriving DecidableEq, Repr

/-- `perform_git_operations` (run_and_sync.py, lines 267-443), step by step:
repository check, user configuration, remote rewrite, staging, the
empty-diff early `return True`, commit, fetch, rebase — a failing rebase is
answered by `git rebase --abort` and `return False`, leaving the local
commit in place — and push. -/
def perform_git_operations (e : GitEnv) : GitResult :=
  if !e.isRepo then ⟨false, false, false, false, false, false⟩
  else if !e.configUserOk then ⟨false, false, false, false, false, false⟩
  else if !e.configEmailOk then ⟨false, false, false, false, false, false⟩
  else if !e.remoteOk then ⟨false, false, false, false, false, false⟩
  else if !e.hasChanges then ⟨true, false, false, false, false, false⟩
  else if !e.commitOk then ⟨false, false, false, false, false, false⟩
  else if !e.fetchOk then ⟨false, true, true, false, false, false⟩
  else if !e.rebaseOk then ⟨false, true, true, true, true, false⟩
  else if !e.pushOk then ⟨false, true, true, true, false, false⟩
  else ⟨true, true, true, true, false, true⟩

/-- The non-lock outcomes a supervisor run depends on. -/
structure RunOutcome where
  configOk : Bool
  scriptOk : Bool
  git : GitEnv
deriving Repr

/-- `main` (run_and_sync.py, lines 458-513): the lock check, the body, and
the `finally: remove_lockfile(logger)` that runs on every exit path —
including the early `return EXIT_CONFIG_ERROR` taken when `check_lockfile`
refuses.  Returns the exit code and the final lock state. -/
def supervisorMain (now : Nat) (o : RunOutcome) (st : LockState) : Nat × LockState :=
  let c := check_lockfile now st
  if !c.1 then
    (EXIT_CONFIG_ERROR, remove_lockfile c.2)
  else
    let st2 := create_lockfile now c.2
    if !o.configOk then (EXIT_CONFIG_ERROR, remove_lockfile st2)
    else if !o.scriptOk then (EXIT_SCRIPT_FAILURE, remove_lockfile st2)
    else if !(perform_git_operations o.git).success then
      (EXIT_GIT_FAILURE, remove_lockfile st2)
    else (EXIT_SUCCESS, remove_lockfile st2)

/-! ### Concrete stores, oracles and documents used as test inputs -/

/-- A batch topic whose story generation will fail. -/
def rowB : SerpRow := ⟨1, "B", "3-News", "b1|b2", "2025-01-02 10:00:00"⟩

/-- A batch topic whose generation would succeed. -/
def rowC : SerpRow := ⟨2, "C", "3-News", "c1", "2025-01-02 10:00:00"⟩

/-- A store with one batch of two topics and nothing generated yet. -/
def dbC1 : DB := ⟨[rowB, rowC], [], []⟩

/-- Oracles that fail narrative generation exactly for query `"B"`. -/
def oFailB : Oracles :=
  ⟨fun r => if r.query == "B" then none else some "story text",
   fun _ _ => some "keywords", fun _ _ => some "img.png", "2025-01-02 11:00:00"⟩

/-- A topic of the excluded category holding the batch-minimal id for `"A"`. -/
def rowSportsA : SerpRow := ⟨1, "A", "17-Sports", "", "2025-01-02 10:00:00"⟩

/-- A non-excluded topic for `"A"` with a larger id. -/
def rowNewsA : SerpRow := ⟨2, "A", "3-News", "", "2025-01-02 10:00:00"⟩

/-- A store whose batch-minimal row for `"A"` is category-excluded. -/
def dbC5 : DB := ⟨[rowSportsA, rowNewsA], [], []⟩

def rowA1 : SerpRow := ⟨1, "A", "3-News", "", "2025-01-02 10:00:00"⟩

def rowA2 : SerpRow := ⟨2, "A", "3-News", "", "2025-01-02 10:00:00"⟩

def rowB3 : SerpRow := ⟨3, "B", "3-News", "", "2025-01-02 10:00:00"⟩

/-- A narrative created earlier the same day, linked to topic 2 (query `"A"`). -/
def oldNews : NewsRow := ⟨1, "old story", "2025-01-02 09:00:00", 2, none⟩

/-- A store where query `"A"` was already narrated today through topic 2,
while the current batch-minimal candidate for `"A"` is topic 1. -/
def dbC6 : DB := ⟨[rowA1, rowA2, rowB3], [oldNews], []⟩

/-- Oracles that always succeed. -/
def oGood : Oracles :=
  ⟨fun _ => some "story text", fun _ _ => some "keywords",
   fun _ _ => some "img.png", "2025-01-02 11:00:00"⟩

/-- The narrative row the pipeline inserts for topic 3 on `dbC6`. -/
def newsC6 : NewsRow := ⟨2, "story text", "2025-01-02 11:00:00", 3, some 1⟩

/-- A parsed existing sitemap with one URL absent from the database and one
shared with it. -/
def existingC7 : List (String × Option String) :=
  [("https://trending.oopus.info/date/20250101", some "2025-01-01"),
   ("https://trending.oopus.info/date/20250103", some "2025-01-03")]

/-- The database mapping of the current run: it no longer has 2025-01-01 and
has a newer date for the shared URL. -/
def dbUrlsC7 : List (String × String) :=
  [("https://trending.oopus.info/date/20250103", "2025-01-05")]

/-- An all-steps-succeed git environment. -/
def gitAllOk : GitEnv := ⟨true, true, true, true, true, true, true, true, true⟩

/-- A git environment whose rebase (and nothing before it) fails. -/
def eRebaseFail : GitEnv := ⟨true, true, true, true, true, true, true, false, true⟩

/-- A run whose body succeeds throughout. -/
def oAllOk : RunOutcome := ⟨true, true, gitAllOk⟩

/-- The filename-sanitizer input exposing both truncation and whitespace
behaviour: longer than 100 characters after stripping, with a tab at index 1
and a hyphen at index 99. -/
def c10input : String := "a\t" ++ String.mk (List.replicate 97 'a') ++ "-aa"

/-- The spec's example input for the sanitizer. -/
def exC10 : String := "Which: \"Trend\"? / Today"

/-! ## Supporting lemmas -/

lemma mem_collapseHyphens {c : Char} : ∀ {l : List Char}, c ∈ collapseHyphens l → c ∈ l
  | [], h => by simpa [collapseHyphens] using h
  | [a], h => by simpa [collapseHyphens] using h
  | a :: b :: t, h => by
    rw [collapseHyphens] at h
    split at h
    · exact List.mem_cons_of_mem a (mem_collapseHyphens h)
    · rcases List.mem_cons.mp h with h | h
      · exact h ▸ List.mem_cons_self a _
      · exact List.mem_cons_of_mem a (mem_collapseHyphens h)

lemma stripHyphens_sublist (l : List Char) : (stripHyphens l).Sublist l := by
  unfold stripHyphens
  have h1 : (l.dropWhile (· = '-')).Sublist l := List.dropWhile_sublist _
  have h2 : ((l.dropWhile (· = '-')).reverse.dropWhile (· = '-')).Sublist
      (l.dropWhile (· = '-')).reverse := List.dropWhile_sublist _
  have h3 := h2.reverse
  rw [List.reverse_reverse] at h3
  exact h3.trans h1

lemma mem_stripHyphens {c : Char} {l : List Char} (h : c ∈ stripHyphens l) : c ∈ l :=
  (stripHyphens_sublist l).mem h

/-- Every character of the sanitized output occurs in the space-replaced,
invalid-free list. -/
lemma sanitize_mem {s : String} {c : Char} (h : c ∈ (sanitize_filename s).data) :
    c ∈ spacesToHyphens (removeInvalid s.data) := by
  unfold sanitize_filename at h
  simp only [String.data] at h
  exact mem_collapseHyphens (mem_stripHyphens (List.mem_of_mem_take h))

theorem sanitize_no_invalid {s : String} {c : Char} (h : c ∈ (sanitize_filename s).data) :
    ¬ c ∈ invalidChars := by
  have hm := sanitize_mem h
  unfold spacesToHyphens at hm
  rcases List.mem_map.mp hm with ⟨d, hd, hdc⟩
  unfold removeInvalid at hd
  rcases List.mem_filter.mp hd with ⟨_, hnot⟩
  by_cases hsp : d = ' '
  · subst hsp
    simp at hdc
    subst hdc
    decide
  · rw [if_neg hsp] at hdc
    subst hdc
    simpa using hnot

theorem sanitize_no_space {s : String} {c : Char} (h : c ∈ (sanitize_filename s).data) :
    c ≠ ' ' := by
  have hm := sanitize_mem h
  unfold spacesToHyphens at hm
  rcases List.mem_map.mp hm with ⟨d, _, hdc⟩
  by_cases hsp : d = ' '
  · rw [hsp] at hdc
    simp at hdc
    subst hdc
    decide
  · rw [if_neg hsp] at hdc
    subst hdc
    exact hsp

theorem sanitize_length_le (s : String) : (sanitize_filename s).length ≤ 100 := by
  unfold sanitize_filename String.length
  simpa using List.length_take_le 100 _

lemma collapseHyphens_head? : ∀ l : List Char, (collapseHyphens l).head? = l.head?
  | [] => rfl
  | [_] => rfl
  | a :: b :: t => by
    rw [collapseHyphens]
    split
    · rename_i hab
      simp only [Bool.and_eq_true, decide_eq_true_eq] at hab
      rw [collapseHyphens_head? (b :: t)]
      simp [hab.1, hab.2]
    · rfl

lemma collapseHyphens_noRun : ∀ l : List Char, NoHyphenRun (collapseHyphens l)
  | [] => List.chain'_nil
  | [c] => List.chain'_singleton c
  | a :: b :: t => by
    rw [collapseHyphens]
    split
    · exact collapseHyphens_noRun (b :: t)
    · rename_i hab
      rw [NoHyphenRun, List.chain'_cons']
      refine ⟨?_, collapseHyphens_noRun (b :: t)⟩
      intro y hy
      rw [collapseHyphens_head? (b :: t)] at hy
      simp only [List.head?_cons, Option.mem_def, Option.some.injEq] at hy
      subst hy
      intro ⟨ha, hb⟩
      subst ha hb
      simp at hab

lemma stripHyphens_prefixOf (l : List Char) :
    stripHyphens l <+: l.dropWhile (· = '-') := by
  unfold stripHyphens
  have h : ((l.dropWhile (· = '-')).reverse.dropWhile (· = '-')) <:+
      (l.dropWhile (· = '-')).reverse := List.dropWhile_suffix _
  have h2 := List.reverse_prefix.mpr h
  simpa using h2

lemma head?_dropWhile_ne {p : Char → Bool} :
    ∀ {l : List Char} {c : Char}, (l.dropWhile p).head? = some c → p c = false
  | [], c => by simp
  | a :: t, c => by
    rw [List.dropWhile_cons]
    split
    · exact head?_dropWhile_ne
    · rename_i hpa
      intro h
      simp only [List.head?_cons, Option.some.injEq] at h
      subst h
      simpa using hpa

lemma sanitize_noRun (s : String) : NoHyphenRun (sanitize_filename s).data := by
  unfold sanitize_filename
  simp only [String.data]
  have h1 : NoHyphenRun (collapseHyphens (spacesToHyphens (removeInvalid s.data))) :=
    collapseHyphens_noRun _
  have h2 := List.Chain'.prefix (h1.suffix (List.dropWhile_suffix (· = '-')))
    (stripHyphens_prefixOf _)
  exact h2.take 100

lemma sanitize_head_ne {s : String} {c : Char}
    (h : (sanitize_filename s).data.head? = some c) : c ≠ '-' := by
  unfold sanitize_filename at h
  simp only [String.data] at h
  set x := collapseHyphens (spacesToHyphens (removeInvalid s.data)) with hx
  rcases Nat.eq_zero_or_pos (stripHyphens x).length with hlen | hlen
  · rw [List.length_eq_zero] at hlen
    rw [hlen] at h
    simp at h
  · have htake : (List.take 100 (stripHyphens x)).head? = (stripHyphens x).head? := by
      cases hsx : stripHyphens x with
      | nil => simp [hsx] at hlen
      | cons y ys => simp
    rw [htake] at h
    rcases stripHyphens_prefixOf x with ⟨t, ht⟩
    have hu : (x.dropWhile (· = '-')).head? = some c := by
      rw [← ht]
      cases hsx : stripHyphens x with
      | nil => simp [hsx] at hlen
      | cons y ys =>
        rw [hsx] at h
        simp only [List.head?_cons, Option.some.injEq] at h
        simp [h]
    have := head?_dropWhile_ne hu
    simpa using this

lemma sanitize_last_ne {s : String} {c : Char}
    (hshort : (stripHyphens (collapseHyphens (spacesToHyphens (removeInvalid s.data)))).length ≤ 100)
    (h : (sanitize_filename s).data.getLast? = some c) : c ≠ '-' := by
  unfold sanitize_filename at h
  simp only [String.data] at h
  rw [List.take_of_length_le hshort] at h
  unfold stripHyphens at h
  rw [List.getLast?_reverse] at h
  have := head?_dropWhile_ne h
  simpa using this

/-! Lemmas about the candidate-selection query. -/

lemma mem_selectTopics {db : DB} {lrow t : SerpRow}
    (hl : lastInsertedRow db = some lrow) (ht : t ∈ selectTopics db) :
    t ∈ db.serpapi_data ∧ selectionPred db lrow.date (dateOnly lrow.date) t = true := by
  unfold selectTopics at ht
  rw [hl] at ht
  have h1 := List.mem_of_mem_take ht
  rw [(List.perm_insertionSort _ _).mem_iff] at h1
  exact List.mem_filter.mp h1

lemma selectionPred_spec {db : DB} {d dOnly : String} {sd : SerpRow}
    (h : selectionPred db d dOnly sd = true) :
    sd.date = d ∧ sd.categories ≠ "17-Sports" ∧ sd.id ∈ minIdsPerQuery db d ∧
      narratedToday db dOnly sd.query = false := by
  unfold selectionPred at h
  simp only [Bool.and_eq_true, beq_iff_eq, bne_iff_ne, ne_eq, Bool.not_eq_true'] at h
  refine ⟨h.1.1.1, h.1.1.2, ?_, h.2⟩
  simpa using h.1.2

lemma mem_batchRows {db : DB} {d : String} {r : SerpRow} :
    r ∈ batchRows db d ↔ r ∈ db.serpapi_data ∧ r.date = d ∧ r.categories ≠ "17-Sports" := by
  unfold batchRows
  rw [List.mem_filter]
  simp [and_assoc]

lemma minIdsPerQuery_spec {db : DB} {d : String} {i : Nat}
    (h : i ∈ minIdsPerQuery db d) :
    ∃ r' ∈ batchRows db d, r'.id = i ∧
      ∀ r ∈ batchRows db d, r.query = r'.query → i ≤ r.id := by
  unfold minIdsPerQuery at h
  rcases List.mem_filterMap.mp h with ⟨q, _, hmin⟩
  have hiff := (List.min?_eq_some_iff
    (fun a => Nat.le_refl a) (fun a b => min_choice a b)
    (fun a b c => le_min_iff)).mp hmin
  obtain ⟨hmem, hle⟩ := hiff
  rcases List.mem_map.mp hmem with ⟨r', hr', hid⟩
  have hr'f := List.mem_filter.mp hr'
  refine ⟨r', hr'f.1, hid, ?_⟩
  intro r hr hq'
  apply hle
  refine List.mem_map.mpr ⟨r, List.mem_filter.mpr ⟨hr, ?_⟩, rfl⟩
  have hq'' : r'.query = q := by simpa using hr'f.2
  simp [hq', hq'']

/-- A selected topic carries the batch date, a non-excluded category, and the
minimal id among the batch's non-excluded rows sharing its query. -/
lemma selected_props {db : DB} {lrow t : SerpRow}
    (hwf : db.WellFormed) (hl : lastInsertedRow db = some lrow)
    (ht : t ∈ selectTopics db) :
    t.date = lrow.date ∧ t.categories ≠ "17-Sports" ∧
      ∀ r ∈ db.serpapi_data, r.date = lrow.date → r.categories ≠ "17-Sports" →
        r.query = t.query → t.id ≤ r.id := by
  obtain ⟨htm, hpred⟩ := mem_selectTopics hl ht
  obtain ⟨hdate, hcat, hmin, _⟩ := selectionPred_spec hpred
  refine ⟨hdate, hcat, ?_⟩
  obtain ⟨r', hr'b, hr'id, hr'min⟩ := minIdsPerQuery_spec hmin
  have hr'mem := (mem_batchRows.mp hr'b).1
  have htr' : r' = t :=
    List.inj_on_of_nodup_map hwf.1 hr'mem htm hr'id
  intro r hr hrd hrc hrq
  have hrb : r ∈ batchRows db lrow.date := mem_batchRows.mpr ⟨hr, hrd, hrc⟩
  exact hr'min r hrb (by rw [hrq, htr'])

/-- Two selected topics sharing a query are the same row. -/
lemma selected_unique_query {db : DB} {lrow a b : SerpRow}
    (hwf : db.WellFormed) (hl : lastInsertedRow db = some lrow)
    (ha : a ∈ selectTopics db) (hb : b ∈ selectTopics db)
    (hq : a.query = b.query) : a = b := by
  obtain ⟨had, hac, hamin⟩ := selected_props hwf hl ha
  obtain ⟨hbd, hbc, hbmin⟩ := selected_props hwf hl hb
  have ham := (mem_selectTopics hl ha).1
  have hbm := (mem_selectTopics hl hb).1
  have h1 : a.id ≤ b.id := hamin b hbm hbd hbc hq.symm
  have h2 : b.id ≤ a.id := hbmin a ham had hac hq
  exact List.inj_on_of_nodup_map hwf.1 ham hbm (Nat.le_antisymm h1 h2)

lemma selectTopics_nodup {db : DB} (hwf : db.WellFormed) :
    (selectTopics db).Nodup := by
  have hnd : db.serpapi_data.Nodup := hwf.1.of_map
  unfold selectTopics
  cases lastInsertedRow db with
  | none => exact List.nodup_nil
  | some lrow =>
    refine (List.take_sublist _ _).nodup ?_
    exact ((List.perm_insertionSort _
      (db.serpapi_data.filter (selectionPred db lrow.date (dateOnly lrow.date)))).symm.nodup
      ((List.filter_sublist _).nodup hnd))

lemma selectTopics_pairwise_query {db : DB} {lrow : SerpRow}
    (hwf : db.WellFormed) (hl : lastInsertedRow db = some lrow) :
    (selectTopics db).Pairwise (fun a b => a.query ≠ b.query) := by
  have hnd := selectTopics_nodup hwf
  refine List.Pairwise.imp_of_mem ?_ hnd
  intro a b ha hb hne hq
  exact hne (selected_unique_query hwf hl ha hb hq)

lemma selectTopics_sorted (db : DB) :
    (selectTopics db).Pairwise (fun a b => a.id ≤ b.id) := by
  unfold selectTopics
  cases lastInsertedRow db with
  | none => exact List.Pairwise.nil
  | some lrow =>
    refine List.Pairwise.sublist (List.take_sublist _ _) ?_
    haveI : IsTotal SerpRow (fun a b => a.id ≤ b.id) := ⟨fun a b => Nat.le_total a.id b.id⟩
    haveI : IsTrans SerpRow (fun a b => a.id ≤ b.id) := ⟨fun _ _ _ => Nat.le_trans⟩
    exact List.sorted_insertionSort _ _

lemma selectTopics_length (db : DB) :
    (selectTopics db).length ≤ NUM_STORIES_TO_CREATE := by
  unfold selectTopics
  cases lastInsertedRow db with
  | none => simp
  | some lrow => simpa using List.length_take_le _ _

/-! Lemmas about the create_stories loop. -/

/-- A successfully generated topic: the story call returned text and the
image-prompt call returned truthy text. -/
def GenOk (o : Oracles) (row : SerpRow) : Prop :=
  ∃ st, o.story row = some st ∧ ∃ ip, o.imagePrompts row st = some ip ∧ ip ≠ ""

lemma imageStep_main (o : Oracles) (row : SerpRow) (ip : String) (db : DB) :
    (imageStep o row ip db).1.main_news_data = db.main_news_data := by
  unfold imageStep
  split
  · split
    · rfl
    · rfl
  · rfl

lemma imageStep_image_mem {o : Oracles} {row : SerpRow} {ip : String} {db : DB}
    {im : ImageRow} (him : im ∈ (imageStep o row ip db).1.image_data) :
    im ∈ db.image_data ∨
      ∃ fn, o.imageFile row ip = some fn ∧ fn ≠ "" ∧ im.file_name = fn := by
  unfold imageStep at him
  split at him
  · rename_i fn hfo
    split at him
    · exact Or.inl him
    · rename_i hfn
      simp only [insertImage, List.mem_append, List.mem_singleton] at him
      rcases him with him | him
      · exact Or.inl him
      · exact Or.inr ⟨fn, hfo, hfn, by rw [him]⟩
  · exact Or.inl him

lemma stepTopic_none_iff (o : Oracles) (row : SerpRow) (db : DB) :
    (stepTopic o row db).2 = none ↔ GenOk o row := by
  unfold stepTopic
  split
  · rename_i hst
    simp [GenOk, hst]
  · rename_i st hst
    split
    · rename_i hip
      simp [GenOk, hst, hip]
    · rename_i ip hip
      split
      · rename_i hip0
        simp [GenOk, hst, hip, hip0]
      · rename_i hip0
        constructor
        · intro _
          exact ⟨st, hst, ip, hip, hip0⟩
        · intro _
          simp

lemma stepTopic_cases (o : Oracles) (row : SerpRow) (db : DB) :
    (stepTopic o row db).2 = none ∨ (stepTopic o row db).1 = db := by
  unfold stepTopic
  split
  · exact Or.inr rfl
  · split
    · exact Or.inr rfl
    · split
      · exact Or.inr rfl
      · exact Or.inl (by simp)

lemma stepTopic_error_fst {o : Oracles} {row : SerpRow} {db : DB} {e : String}
    (h : (stepTopic o row db).2 = some e) : (stepTopic o row db).1 = db := by
  rcases stepTopic_cases o row db with h' | h'
  · rw [h] at h'
    exact absurd h' (by simp)
  · exact h'

lemma stepTopic_news_mono {o : Oracles} {row : SerpRow} {db : DB} {n : NewsRow}
    (hn : n ∈ db.main_news_data) : n ∈ (stepTopic o row db).1.main_news_data := by
  unfold stepTopic
  split
  · exact hn
  · split
    · exact hn
    · split
      · exact hn
      · simp only []
        split
        · rw [imageStep_main]
          exact hn
        · simp only [insertNews, imageStep_main, List.mem_append]
          exact Or.inl hn

lemma stepTopic_news_subset {o : Oracles} {row : SerpRow} {db : DB} {n : NewsRow}
    (hn : n ∈ (stepTopic o row db).1.main_news_data) :
    n ∈ db.main_news_data ∨
      (n.serpapi_id = row.id ∧
        ∃ st, o.story row = some st ∧ st ≠ "" ∧
          ∃ ip, o.imagePrompts row st = some ip ∧ ip ≠ "") := by
  unfold stepTopic at hn
  split at hn
  · exact Or.inl hn
  · rename_i st hst
    split at hn
    · exact Or.inl hn
    · rename_i ip hip
      split at hn
      · exact Or.inl hn
      · rename_i hip0
        simp only [] at hn
        split at hn
        · rename_i hst0
          rw [imageStep_main] at hn
          exact Or.inl hn
        · rename_i hst0
          simp only [insertNews, imageStep_main, List.mem_append,
            List.mem_singleton] at hn
          rcases hn with hn | hn
          · exact Or.inl hn
          · exact Or.inr ⟨by rw [hn], st, hst, hst0, ip, hip, hip0⟩

lemma stepTopic_image_subset {o : Oracles} {row : SerpRow} {db : DB} {im : ImageRow}
    (him : im ∈ (stepTopic o row db).1.image_data) :
    im ∈ db.image_data ∨
      (∃ st, o.story row = some st ∧
        ∃ ip, o.imagePrompts row st = some ip ∧ ip ≠ "" ∧
          ∃ fn, o.imageFile row ip = some fn ∧ fn ≠ "" ∧ im.file_name = fn) := by
  unfold stepTopic at him
  split at him
  · exact Or.inl him
  · rename_i st hst
    split at him
    · exact Or.inl him
    · rename_i ip hip
      split at him
      · exact Or.inl him
      · rename_i hip0
        simp only [] at him
        have him' : im ∈ (imageStep o row ip db).1.image_data := by
          split at him
          · exact him
          · simpa [insertNews] using him
        rcases imageStep_image_mem him' with h | ⟨fn, hfo, hfn, hname⟩
        · exact Or.inl h
        · exact Or.inr ⟨st, hst, ip, hip, hip0, fn, hfo, hfn, hname⟩

/-- The loop only ever appends to `main_news_data`. -/
lemma processRows_news_mono (o : Oracles) :
    ∀ (rows : List SerpRow) (db : DB) (n : NewsRow), n ∈ db.main_news_data →
      n ∈ (processRows o rows db).1.main_news_data
  | [], _, _, hn => hn
  | row :: rest, db, n, hn => by
    rw [processRows]
    split
    · exact processRows_news_mono o rest db n hn
    · cases hs : stepTopic o row db with
      | mk db1 err =>
        cases err with
        | none =>
          have hdb1 : n ∈ db1.main_news_data := by
            have := @stepTopic_news_mono o row db n hn
            rwa [hs] at this
          exact processRows_news_mono o rest db1 n hdb1
        | some e =>
          have hdb1 : n ∈ db1.main_news_data := by
            have := @stepTopic_news_mono o row db n hn
            rwa [hs] at this
          exact hdb1

/-- Every narrative row present after the loop was already there or was
inserted for one of the processed topics — one whose story call succeeded
with truthy text and whose image-prompt call succeeded with truthy text. -/
lemma processRows_news_subset (o : Oracles) :
    ∀ (rows : List SerpRow) (db : DB) (n : NewsRow),
      n ∈ (processRows o rows db).1.main_news_data →
      n ∈ db.main_news_data ∨
        ∃ row ∈ rows, n.serpapi_id = row.id ∧
          ∃ st, o.story row = some st ∧ st ≠ "" ∧
            ∃ ip, o.imagePrompts row st = some ip ∧ ip ≠ ""
  | [], _, _, hn => Or.inl hn
  | row :: rest, db, n, hn => by
    rw [processRows] at hn
    split at hn
    · rcases processRows_news_subset o rest db n hn with h | ⟨r, hr, hrest⟩
      · exact Or.inl h
      · exact Or.inr ⟨r, List.mem_cons_of_mem _ hr, hrest⟩
    · revert hn
      cases hs : stepTopic o row db with
      | mk db1 err =>
        cases err with
        | some e =>
          intro hn
          have hstep : n ∈ (stepTopic o row db).1.main_news_data := by
            rw [hs]; exact hn
          rcases stepTopic_news_subset hstep with h | ⟨hid, hgen⟩
          · exact Or.inl h
          · exact Or.inr ⟨row, List.mem_cons_self _ _, hid, hgen⟩
        | none =>
          intro hn
          rcases processRows_news_subset o rest db1 n hn with h | ⟨r, hr, hrest⟩
          · have hstep : n ∈ (stepTopic o row db).1.main_news_data := by
              rw [hs]; exact h
            rcases stepTopic_news_subset hstep with h' | ⟨hid, hgen⟩
            · exact Or.inl h'
            · exact Or.inr ⟨row, List.mem_cons_self _ _, hid, hgen⟩
          · exact Or.inr ⟨r, List.mem_cons_of_mem _ hr, hrest⟩

/-- Every image row present after the loop was already there or was created
for a processed topic whose story and image-prompt calls both succeeded. -/
lemma processRows_image_subset (o : Oracles) :
    ∀ (rows : List SerpRow) (db : DB) (im : ImageRow),
      im ∈ (processRows o rows db).1.image_data →
      im ∈ db.image_data ∨
        ∃ row ∈ rows, ∃ st, o.story row = some st ∧
          ∃ ip, o.imagePrompts row st = some ip ∧ ip ≠ "" ∧
            ∃ fn, o.imageFile row ip = some fn ∧ fn ≠ "" ∧ im.file_name = fn
  | [], _, _, him => Or.inl him
  | row :: rest, db, im, him => by
    rw [processRows] at him
    split at him
    · rcases processRows_image_subset o rest db im him with h | ⟨r, hr, hrest⟩
      · exact Or.inl h
      · exact Or.inr ⟨r, List.mem_cons_of_mem _ hr, hrest⟩
    · revert him
      cases hs : stepTopic o row db with
      | mk db1 err =>
        cases err with
        | some e =>
          intro him
          have hstep : im ∈ (stepTopic o row db).1.image_data := by
            rw [hs]; exact him
          rcases stepTopic_image_subset hstep with h | hgen
          · exact Or.inl h
          · exact Or.inr ⟨row, List.mem_cons_self _ _, hgen⟩
        | none =>
          intro him
          rcases processRows_image_subset o rest db1 im him with h | ⟨r, hr, hrest⟩
          · have hstep : im ∈ (stepTopic o row db).1.image_data := by
              rw [hs]; exact h
            rcases stepTopic_image_subset hstep with h' | hgen
            · exact Or.inl h'
            · exact Or.inr ⟨row, List.mem_cons_self _ _, hgen⟩
          · exact Or.inr ⟨r, List.mem_cons_of_mem _ hr, hrest⟩

/-- If the loop finishes without an uncaught exception, every processed topic
either already had a narrative (visible in the final store) or generated
successfully: a story failure or missing image prompts always abort. -/
lemma processRows_no_error (o : Oracles) :
    ∀ (rows : List SerpRow) (db : DB), (processRows o rows db).2 = none →
      ∀ row ∈ rows,
        (∃ n ∈ (processRows o rows db).1.main_news_data, n.serpapi_id = row.id) ∨
          GenOk o row
  | [], _, _, _, hrow => absurd hrow (List.not_mem_nil _)
  | row :: rest, db, herr, r, hr => by
    rw [processRows] at herr ⊢
    split at herr
    · rename_i hexists
      rcases List.mem_cons.mp hr with rfl | hr'
      · rcases List.any_eq_true.mp hexists with ⟨n, hn, hnid⟩
        rw [if_pos ‹_›]
        exact Or.inl ⟨n, processRows_news_mono o rest db n hn, by simpa using hnid⟩
      · rw [if_pos ‹_›]
        exact processRows_no_error o rest db herr r hr'
    · rename_i hnotex
      rw [if_neg hnotex]
      revert herr
      cases hs : stepTopic o row db with
      | mk db1 err =>
        cases err with
        | some e => intro herr; simp at herr
        | none =>
          intro herr
          rcases List.mem_cons.mp hr with rfl | hr'
          · refine Or.inr ?_
            have := (stepTopic_none_iff o r db).mp (by rw [hs])
            exact this
          · exact processRows_no_error o rest db1 herr r hr'

/-! Lemmas about the run supervisor. -/

lemma check_lockfile_some (now m : Nat) :
    check_lockfile now ⟨some m⟩ =
      if now - m > LOCKFILE_STALE_MINUTES * 60 then (true, ⟨none⟩)
      else (false, ⟨some m⟩) := rfl

lemma check_lockfile_none (now : Nat) :
    check_lockfile now ⟨none⟩ = (true, ⟨none⟩) := rfl

/-! Lemmas about the sitemap merge. -/

lemma lookupUrl_cons (p : String × Option String) (t : List (String × Option String))
    (url : String) :
    lookupUrl (p :: t) url = if p.1 = url then some p.2 else lookupUrl t url := by
  unfold lookupUrl
  by_cases h : p.1 = url
  · rw [List.find?_cons_of_pos _ (by simp [h]), if_pos h]
    rfl
  · rw [List.find?_cons_of_neg _ (by simp [h]), if_neg h]

lemma updateUrl_cons (p : String × Option String) (t : List (String × Option String))
    (k : String) (v : Option String) :
    updateUrl (p :: t) k v = (if p.1 = k then (k, v) else p) :: updateUrl t k v := by
  unfold updateUrl
  simp only [List.map_cons]
  by_cases h : p.1 = k
  · simp [h]
  · simp [h]

lemma lookupUrl_update_ne {k url : String} {v : Option String} (h : url ≠ k) :
    ∀ m, lookupUrl (updateUrl m k v) url = lookupUrl m url
  | [] => rfl
  | p :: t => by
    rw [updateUrl_cons, lookupUrl_cons, lookupUrl_cons]
    by_cases hpk : p.1 = k
    · rw [if_pos hpk]
      rw [if_neg (by simpa using fun hh => h hh.symm)]
      rw [if_neg (by rw [hpk]; exact fun hh => h hh.symm)]
      exact lookupUrl_update_ne h t
    · rw [if_neg hpk]
      by_cases hpu : p.1 = url
      · rw [if_pos hpu, if_pos hpu]
      · rw [if_neg hpu, if_neg hpu]
        exact lookupUrl_update_ne h t

lemma lookupUrl_update_self {k : String} {v : Option String} :
    ∀ m, (lookupUrl m k).isSome → lookupUrl (updateUrl m k v) k = some v
  | [] => by
    intro hs
    simp [lookupUrl] at hs
  | p :: t => by
    intro hs
    rw [updateUrl_cons, lookupUrl_cons]
    by_cases hpk : p.1 = k
    · rw [if_pos hpk]
      simp
    · rw [if_neg hpk]
      simp only [if_neg hpk]
      rw [lookupUrl_cons, if_neg hpk] at hs
      exact lookupUrl_update_self t hs

lemma lookupUrl_append_some {m l : List (String × Option String)} {url : String}
    {x : Option String} (h : lookupUrl m url = some x) :
    lookupUrl (m ++ l) url = some x := by
  unfold lookupUrl at h ⊢
  rw [List.find?_append]
  cases hf : (m.find? (fun p => p.1 == url)) with
  | none => rw [hf] at h; simp at h
  | some q =>
    rw [hf] at h
    simp only [Option.or_some, hf]
    simpa using h

lemma lookupUrl_append_none {m l : List (String × Option String)} {url : String}
    (h : lookupUrl m url = none) :
    lookupUrl (m ++ l) url = lookupUrl l url := by
  unfold lookupUrl at h ⊢
  rw [List.find?_append]
  cases hf : (m.find? (fun p => p.1 == url)) with
  | none => simp [hf]
  | some q => rw [hf] at h; simp at h

lemma lookupUrl_mem : ∀ {m : List (String × Option String)} {url : String}
    {x : Option String}, lookupUrl m url = some x → (url, x) ∈ m
  | [], _, _, h => by simp [lookupUrl] at h
  | p :: t, url, x, h => by
    rw [lookupUrl_cons] at h
    by_cases hpu : p.1 = url
    · rw [if_pos hpu] at h
      have hx : p.2 = x := by simpa using h
      have : p = (url, x) := by
        cases p
        simp only at hpu hx
        rw [hpu, hx]
      rw [← this]
      exact List.mem_cons_self _ _
    · rw [if_neg hpu] at h
      exact List.mem_cons_of_mem _ (lookupUrl_mem h)

/-- A merge iteration leaves every other URL's entry untouched. -/
lemma mergeStep_lookup_ne {m : List (String × Option String)} {kv : String × String}
    {url : String} (h : url ≠ kv.1) :
    lookupUrl (mergeStep m kv) url = lookupUrl m url := by
  unfold mergeStep
  split
  · split
    · split
      · split
        · split
          · exact lookupUrl_update_ne h m
          · rfl
        · exact lookupUrl_update_ne h m
      · exact lookupUrl_update_ne h m
    · exact lookupUrl_update_ne h m
  · cases hx : lookupUrl m url with
    | some x => exact lookupUrl_append_some hx
    | none =>
      refine (lookupUrl_append_none hx).trans ?_
      rw [lookupUrl_cons, if_neg (fun hh => h hh.symm)]
      rfl

/-- A merge iteration on a URL present in both mappings, with two parseable
dates, keeps the chronologically later one. -/
lemma mergeStep_lookup_both {m : List (String × Option String)} {kv : String × String}
    {ex : String} {de dd : Nat × Nat × Nat}
    (hl : lookupUrl m kv.1 = some (some ex)) (hex : ex ≠ "")
    (hpe : parseDateYMD ex = some de) (hpd : parseDateYMD kv.2 = some dd) :
    lookupUrl (mergeStep m kv) kv.1 =
      some (some (if dateLtB de dd then kv.2 else ex)) := by
  unfold mergeStep
  rw [hl]
  have htr : truthyOpt (some ex) = true := by simp [truthyOpt, hex]
  simp only [htr, if_true, hpe, hpd]
  by_cases hlt : dateLtB de dd = true
  · simp only [hlt, if_true]
    exact lookupUrl_update_self m (by rw [hl]; rfl)
  · simp only [Bool.not_eq_true] at hlt
    simp only [hlt, Bool.false_eq_true, if_false]
    rw [hl]

/-- Folding the database mapping never touches URLs outside it. -/
lemma mergeUrls_lookup_ne :
    ∀ (dbUrls : List (String × String)) (existing : List (String × Option String))
      (url : String), (∀ kv ∈ dbUrls, url ≠ kv.1) →
      lookupUrl (mergeUrls existing dbUrls) url = lookupUrl existing url
  | [], _, _, _ => rfl
  | kv :: rest, existing, url, h => by
    have h1 : lookupUrl (mergeUrls (mergeStep existing kv) rest) url
        = lookupUrl (mergeStep existing kv) url :=
      mergeUrls_lookup_ne rest (mergeStep existing kv) url
        (fun kv' hkv' => h kv' (List.mem_cons_of_mem _ hkv'))
    have h2 : lookupUrl (mergeStep existing kv) url = lookupUrl existing url :=
      mergeStep_lookup_ne (h kv (List.mem_cons_self _ _))
    show lookupUrl (mergeUrls (mergeStep existing kv) rest) url = lookupUrl existing url
    rw [h1, h2]

/-- Folding the database mapping over a URL present in both mappings keeps
the chronologically later date. -/
lemma mergeUrls_lookup_both :
    ∀ (dbUrls : List (String × String)) (existing : List (String × Option String))
      (url dbv ex : String) (de dd : Nat × Nat × Nat),
      (dbUrls.map Prod.fst).Nodup → (url, dbv) ∈ dbUrls →
      lookupUrl existing url = some (some ex) → ex ≠ "" →
      parseDateYMD ex = some de → parseDateYMD dbv = some dd →
      lookupUrl (mergeUrls existing dbUrls) url =
        some (some (if dateLtB de dd then dbv else ex))
  | [], _, _, _, _, _, _, _, hmem, _, _, _, _ => absurd hmem (List.not_mem_nil _)
  | kv :: rest, existing, url, dbv, ex, de, dd, hnd, hmem, hl, hex, hpe, hpd => by
    rcases List.mem_cons.mp hmem with heq | hmem'
    · have hkv1 : kv.1 = url := by rw [← heq]
      have hkv2 : kv.2 = dbv := by rw [← heq]
      have hrest : ∀ kv' ∈ rest, url ≠ kv'.1 := by
        intro kv' hkv'
        intro hurl
        have : kv.1 ∈ rest.map Prod.fst :=
          List.mem_map.mpr ⟨kv', hkv', by rw [← hurl, hkv1]⟩
        exact (List.nodup_cons.mp hnd).1 this
      have hstep : lookupUrl (mergeStep existing kv) kv.1 =
          some (some (if dateLtB de dd then kv.2 else ex)) :=
        mergeStep_lookup_both (by rw [hkv1]; exact hl) hex hpe (by rw [hkv2]; exact hpd)
      show lookupUrl (mergeUrls (mergeStep existing kv) rest) url =
        some (some (if dateLtB de dd then dbv else ex))
      rw [mergeUrls_lookup_ne rest _ url hrest]
      rw [← hkv1, hstep, hkv2]
    · have hne : url ≠ kv.1 := by
        intro hurl
        have : kv.1 ∈ rest.map Prod.fst :=
          List.mem_map.mpr ⟨(url, dbv), hmem', by rw [← hurl]⟩
        exact (List.nodup_cons.mp hnd).1 this
      show lookupUrl (mergeUrls (mergeStep existing kv) rest) url =
        some (some (if dateLtB de dd then dbv else ex))
      exact mergeUrls_lookup_both rest (mergeStep existing kv) url dbv ex de dd
        (List.nodup_cons.mp hnd).2 hmem'
        (by rw [mergeStep_lookup_ne hne]; exact hl) hex hpe hpd

/-- Every merged entry with a truthy date is rendered verbatim in the final
sitemap entry list. -/
lemma mem_sitemapEntries {merged : List (String × Option String)} {cur url ex : String}
    (hmem : (url, some ex) ∈ merged) (hex : ex ≠ "") :
    (url, ex) ∈ sitemapEntries merged cur := by
  unfold sitemapEntries
  refine List.mem_cons_of_mem _ ?_
  refine List.mem_map.mpr ⟨(dateKey url, (url, some ex)), ?_, by simp [hex]⟩
  rw [(List.perm_insertionSort _ _).mem_iff]
  exact List.mem_map.mpr ⟨(url, some ex), hmem, rfl⟩

lemma runAttempts_congr (f g : Nat → WsAttempt)
    (h : ∀ i, attemptOutcome (f i) = attemptOutcome (g i)) :
    ∀ fuel start, runAttempts f start fuel = runAttempts g start fuel := by
  intro fuel
  induction fuel with
  | zero => intro start; rfl
  | succ n ih =>
    intro start
    have hs := h start
    unfold attemptOutcome at hs
    rw [runAttempts, runAttempts]
    cases hf : ws_send_prompt (f start) with
    | ok c =>
      cases hg : ws_send_prompt (g start) with
      | ok d =>
        rw [hf, hg] at hs
        simp only [Option.some.injEq] at hs
        rw [hs]
      | error e => rw [hf, hg] at hs; simp at hs
    | error e =>
      cases hg : ws_send_prompt (g start) with
      | ok d => rw [hf, hg] at hs; simp at hs
      | error e' => rw [ih]

lemma runAttempts_all_fail (f : Nat → WsAttempt)
    (h : ∀ i, attemptOutcome (f i) = none) :
    ∀ fuel start, runAttempts f start fuel = (none, fuel) := by
  intro fuel
  induction fuel with
  | zero => intro start; rfl
  | succ n ih =>
    intro start
    have hs := h start
    unfold attemptOutcome at hs
    rw [runAttempts]
    cases hf : ws_send_prompt (f start) with
    | ok c => rw [hf] at hs; simp at hs
    | error e => simp [ih]

/-! ## Claim theorems -/

/-- C1, counterexample.  In the store `dbC1`, topic `rowB`'s narrative
generation fails and topic `rowC`'s would succeed; yet the run aborts with an
uncaught `TypeError` and `rowC` never receives a narrative — the loop does
not continue to the next topic, contradicting the claimed partial-failure
isolation. -/
theorem generation_failure_not_isolated_cex :
    oFailB.story rowB = none ∧
    rowB ∈ selectTopics dbC1 ∧ rowC ∈ selectTopics dbC1 ∧
    GenOk oFailB rowC ∧
    (create_stories oFailB dbC1).2 = some "TypeError: can only concatenate str to str" ∧
    (create_stories oFailB dbC1).1.main_news_data = [] ∧
    (create_stories oFailB dbC1).1.image_data = [] := by
  refine ⟨rfl, by decide, by decide, ⟨"story text", rfl, "keywords", rfl, by decide⟩,
    by decide, by decide, by decide⟩

/-- C1, amended.  No Narrative or Image row is ever written for a selected
topic whose narrative generation failed after retries or whose image-prompt
generation yielded no truthy content; but the run does not continue past such
a topic: if the batch run finishes without an uncaught exception, every
selected topic either already had a narrative or generated successfully. -/
theorem generation_failure_aborts (o : Oracles) (db : DB) :
    ((create_stories o db).2 = none →
      ∀ row ∈ selectTopics db,
        (∃ n ∈ (create_stories o db).1.main_news_data, n.serpapi_id = row.id) ∨
          GenOk o row) ∧
    (∀ n ∈ (create_stories o db).1.main_news_data, n ∉ db.main_news_data →
      ∃ row ∈ selectTopics db, n.serpapi_id = row.id ∧
        ∃ st, o.story row = some st ∧ st ≠ "" ∧
          ∃ ip, o.imagePrompts row st = some ip ∧ ip ≠ "") ∧
    (∀ im ∈ (create_stories o db).1.image_data, im ∉ db.image_data →
      ∃ row ∈ selectTopics db, ∃ st, o.story row = some st ∧
        ∃ ip, o.imagePrompts row st = some ip ∧ ip ≠ "" ∧
          ∃ fn, o.imageFile row ip = some fn ∧ fn ≠ "" ∧ im.file_name = fn) := by
  refine ⟨?_, ?_, ?_⟩
  · intro herr row hrow
    exact processRows_no_error o (selectTopics db) db herr row hrow
  · intro n hn hnew
    rcases processRows_news_subset o (selectTopics db) db n hn with h | h
    · exact absurd h hnew
    · exact h
  · intro im him hnew
    rcases processRows_image_subset o (selectTopics db) db im him with h | h
    · exact absurd h hnew
    · exact h

/-- C1, witness for the amended theorem at a concrete successful run. -/
theorem generation_failure_aborts_witness :
    (∃ n ∈ (create_stories oGood dbC6).1.main_news_data, n.serpapi_id = rowB3.id) ∨
      GenOk oGood rowB3 :=
  (generation_failure_aborts oGood dbC6).1 (by decide) rowB3 (by decide)

/-- C2.  The gateway's real wait schedule on a fully exhausted request: 5
seconds after each of the first three failed attempts and nothing else.  The
`attempt < MAX_RETRIES - 1` guard (with `MAX_RETRIES = 4`) already implies
`attempt < 3`, so the 300-second cool-down branch is unreachable and the
total scheduled wait is 15 seconds, not the claimed (3 × 5) + 300 − 5 = 310
with a 300-second wait before the final attempt. -/
theorem retry_backoff_actual_schedule :
    (∀ a : Nat, waitAfterAttempt a = if a < 3 then some 5 else none) ∧
    totalWaitOnExhaustion = 15 := by
  constructor
  · intro a
    unfold waitAfterAttempt MAX_RETRIES
    by_cases h : a < 3
    · have h' : a < 4 - 1 := h
      simp [h, h']
    · have h' : ¬ a < 4 - 1 := h
      simp [h, h']
  · decide

/-- C3, counterexample.  A service that closes every connection cleanly
without a result message does not make the gateway escalate after one
attempt: all `MAX_RETRIES = 4` attempts are consumed, because the no-content
exception is caught by the same `except` as every transport error. -/
theorem no_content_retried_cex :
    ws_send_prompt ⟨[], StreamEnd.closed⟩ =
      Except.error "No valid response content received" ∧
    call_api_with_retry (fun _ => ⟨[], StreamEnd.closed⟩) = (none, 4) ∧
    MAX_RETRIES = 4 := by
  exact ⟨rfl, rfl, rfl⟩

/-- C3, amended.  A clean connection closure without a terminal result raises
a no-content exception for that attempt, and the gateway retries it exactly
like any other transport error: the retry loop's behaviour depends only on
each attempt's success-or-failure outcome, never on the kind of failure, and
any all-failing request consumes all `MAX_RETRIES` attempts. -/
theorem no_content_retried_uniformly :
    (∀ f g : Nat → WsAttempt,
      (∀ i, attemptOutcome (f i) = attemptOutcome (g i)) →
        call_api_with_retry f = call_api_with_retry g) ∧
    (∀ f : Nat → WsAttempt, (∀ i, attemptOutcome (f i) = none) →
      call_api_with_retry f = (none, MAX_RETRIES)) := by
  constructor
  · intro f g h
    exact runAttempts_congr f g h MAX_RETRIES 0
  · intro f h
    exact runAttempts_all_fail f h MAX_RETRIES 0

/-- C3, witness: a no-content stream and a transport-error stream produce
identical gateway behaviour, and both exhaust all four attempts. -/
theorem no_content_retried_uniformly_witness :
    call_api_with_retry (fun _ => ⟨[WsMsg.other], StreamEnd.closed⟩) =
      call_api_with_retry (fun _ => ⟨[WsMsg.other], StreamEnd.transport "connection reset"⟩) ∧
    call_api_with_retry (fun _ => ⟨[WsMsg.other], StreamEnd.transport "connection reset"⟩) =
      (none, MAX_RETRIES) :=
  ⟨no_content_retried_uniformly.1 _ _ (fun _ => rfl),
   no_content_retried_uniformly.2 _ (fun _ => rfl)⟩

/-- C4.  An invocation refused lock acquisition (marker younger than the
threshold) still runs the guaranteed-cleanup `finally`, which deletes the
lock marker of the run still in progress; a subsequent invocation then
acquires the lock immediately, so mutual exclusion is not preserved across a
refused acquisition. -/
theorem refused_lock_cleanup_breaks_mutex (now now2 : Nat) (o : RunOutcome)
    (st : LockState) (m : Nat) (hm : st.lockMtime = some m)
    (hyoung : now - m < LOCKFILE_STALE_MINUTES * 60) :
    (supervisorMain now o st).1 = EXIT_CONFIG_ERROR ∧
    (supervisorMain now o st).2.lockMtime = none ∧
    (check_lockfile now2 (supervisorMain now o st).2).1 = true := by
  rcases st with ⟨mt⟩
  replace hm : mt = some m := hm
  subst hm
  have hcheck : check_lockfile now ⟨some m⟩ = (false, ⟨some m⟩) := by
    rw [check_lockfile_some]
    rw [if_neg (by unfold LOCKFILE_STALE_MINUTES at hyoung ⊢; omega)]
  unfold supervisorMain
  rw [hcheck]
  exact ⟨rfl, rfl, rfl⟩

/-- C4, witness: a 10-minute-old marker refuses the run, yet afterwards the
marker is gone and the next check passes. -/
theorem refused_lock_cleanup_breaks_mutex_witness :
    (supervisorMain 1600 oAllOk ⟨some 1000⟩).1 = EXIT_CONFIG_ERROR ∧
    (supervisorMain 1600 oAllOk ⟨some 1000⟩).2.lockMtime = none ∧
    (check_lockfile 1601 (supervisorMain 1600 oAllOk ⟨some 1000⟩).2).1 = true :=
  refused_lock_cleanup_breaks_mutex 1600 1601 oAllOk ⟨some 1000⟩ 1000 rfl (by decide)

/-- C5, counterexample.  When the batch-minimal row for a query carries the
excluded category, the query still returns that query's non-excluded row with
a larger id: the selected topic for `"A"` has id 2 although id 1 belongs to a
batch row with the same query — so the returned topic is not "the one with
the minimum id for that query within the batch". -/
theorem selection_min_id_cex :
    selectTopics dbC5 = [rowNewsA] ∧
    lastInsertedRow dbC5 = some rowNewsA ∧
    rowSportsA ∈ dbC5.serpapi_data ∧
    rowSportsA.date = rowNewsA.date ∧
    rowSportsA.query = rowNewsA.query ∧
    rowSportsA.id < rowNewsA.id := by
  decide

/-- C5, amended.  On a store with unique primary keys, every selected topic
carries the latest batch date and a categories field other than
`'17-Sports'`, and holds the minimal id among the batch's *non-excluded* rows
sharing its query; no two selected topics share a query; the result is
ordered by id ascending and capped at `NUM_STORIES_TO_CREATE = 20`. -/
theorem selection_query_properties (db : DB) (lrow : SerpRow)
    (hwf : db.WellFormed) (hl : lastInsertedRow db = some lrow) :
    (∀ t ∈ selectTopics db,
      t.date = lrow.date ∧ t.categories ≠ "17-Sports" ∧
        ∀ r ∈ db.serpapi_data, r.date = lrow.date → r.categories ≠ "17-Sports" →
          r.query = t.query → t.id ≤ r.id) ∧
    (selectTopics db).Pairwise (fun a b => a.query ≠ b.query) ∧
    (selectTopics db).Pairwise (fun a b => a.id ≤ b.id) ∧
    (selectTopics db).length ≤ NUM_STORIES_TO_CREATE := by
  refine ⟨?_, selectTopics_pairwise_query hwf hl, selectTopics_sorted db,
    selectTopics_length db⟩
  intro t ht
  exact selected_props hwf hl ht

/-- C5, witness for the amended theorem on the concrete store `dbC5`. -/
theorem selection_query_properties_witness :
    (selectTopics dbC5).Pairwise (fun a b => a.query ≠ b.query) ∧
    (selectTopics dbC5).length ≤ NUM_STORIES_TO_CREATE :=
  ⟨(selection_query_properties dbC5 rowNewsA (by decide) (by decide)).2.1,
   (selection_query_properties dbC5 rowNewsA (by decide) (by decide)).2.2.2⟩

/-- C6.  On a well-formed store, any narrative row the pipeline run inserts
belongs to a topic whose query had *no* narrative created on the batch day —
through any topic id with that query.  Hence a second run on the same batch
date inserts zero additional narratives for queries already narrated that
day, even when the earlier narrative is linked to a different topic id. -/
theorem generation_idempotent_per_query (o : Oracles) (db : DB) (lrow : SerpRow)
    (n : NewsRow) (sd : SerpRow) (hwf : db.WellFormed)
    (hl : lastInsertedRow db = some lrow)
    (hn : n ∈ (create_stories o db).1.main_news_data) (hnew : n ∉ db.main_news_data)
    (hsd : sd ∈ db.serpapi_data) (hid : sd.id = n.serpapi_id) :
    narratedToday db (dateOnly lrow.date) sd.query = false := by
  rcases processRows_news_subset o (selectTopics db) db n hn with h | ⟨row, hrow, hnid, _⟩
  · exact absurd h hnew
  · obtain ⟨hrowm, hpred⟩ := mem_selectTopics hl hrow
    obtain ⟨_, _, _, hnar⟩ := selectionPred_spec hpred
    have hsdrow : sd = row :=
      List.inj_on_of_nodup_map hwf.1 hsd hrowm (by rw [hid, hnid])
    rw [hsdrow]
    exact hnar

/-- C6, witness: on `dbC6`, where query `"A"` was narrated earlier today via
topic 2, the run's only insertion is for query `"B"`, which was not. -/
theorem generation_idempotent_per_query_witness :
    narratedToday dbC6 (dateOnly rowB3.date) rowB3.query = false :=
  generation_idempotent_per_query oGood dbC6 rowB3 newsC6 rowB3
    (by decide) (by decide) (by decide) (by decide) (by decide) (by decide)

/-- C7.  The sitemap merge (i) returns, for every URL present only in the
parsed existing document, exactly the existing entry, and renders it verbatim
(same URL, same last-modified date) in the output entry list; and (ii) for a
URL present in both mappings with parseable dates, keeps the database date
precisely when it is chronologically later, the existing date otherwise. -/
theorem sitemap_merge_preserves_history (existing : List (String × Option String))
    (dbUrls : List (String × String)) (cur : String) :
    (∀ url ex, lookupUrl existing url = some ex → (∀ kv ∈ dbUrls, url ≠ kv.1) →
      lookupUrl (mergeUrls existing dbUrls) url = some ex) ∧
    (∀ url ex, lookupUrl existing url = some (some ex) → ex ≠ "" →
      (∀ kv ∈ dbUrls, url ≠ kv.1) →
      (url, ex) ∈ sitemapEntries (mergeUrls existing dbUrls) cur) ∧
    (∀ url dbv ex de dd, (dbUrls.map Prod.fst).Nodup → (url, dbv) ∈ dbUrls →
      lookupUrl existing url = some (some ex) → ex ≠ "" →
      parseDateYMD ex = some de → parseDateYMD dbv = some dd →
      lookupUrl (mergeUrls existing dbUrls) url =
        some (some (if dateLtB de dd then dbv else ex))) := by
  refine ⟨?_, ?_, ?_⟩
  · intro url ex hl hnotin
    rw [mergeUrls_lookup_ne dbUrls existing url hnotin]
    exact hl
  · intro url ex hl hex hnotin
    have hmerged : lookupUrl (mergeUrls existing dbUrls) url = some (some ex) := by
      rw [mergeUrls_lookup_ne dbUrls existing url hnotin]
      exact hl
    exact mem_sitemapEntries (lookupUrl_mem hmerged) hex
  · intro url dbv ex de dd hnd hmem hl hex hpe hpd
    exact mergeUrls_lookup_both dbUrls existing url dbv ex de dd hnd hmem hl hex hpe hpd

/-- C7, witness on the concrete document `existingC7` and mapping `dbUrlsC7`:
the 2025-01-01 entry absent from the database survives unchanged (also in the
rendered output), and the shared URL keeps the later date 2025-01-05. -/
theorem sitemap_merge_preserves_history_witness :
    lookupUrl (mergeUrls existingC7 dbUrlsC7)
      "https://trending.oopus.info/date/20250101" = some (some "2025-01-01") ∧
    ("https://trending.oopus.info/date/20250101", "2025-01-01") ∈
      sitemapEntries (mergeUrls existingC7 dbUrlsC7) "2025-01-06" ∧
    lookupUrl (mergeUrls existingC7 dbUrlsC7)
      "https://trending.oopus.info/date/20250103" = some (some "2025-01-05") := by
  refine ⟨?_, ?_, ?_⟩
  · exact (sitemap_merge_preserves_history existingC7 dbUrlsC7 "2025-01-06").1
      _ _ (by decide) (by decide)
  · exact (sitemap_merge_preserves_history existingC7 dbUrlsC7 "2025-01-06").2.1
      _ _ (by decide) (by decide) (by decide)
  · exact ((sitemap_merge_preserves_history existingC7 dbUrlsC7 "2025-01-06").2.2
      "https://trending.oopus.info/date/20250103" "2025-01-05" "2025-01-03"
      (2025, 1, 3) (2025, 1, 5) (by decide) (by decide) (by decide) (by decide)
      (by decide) (by decide)).trans (by decide)

/-- C8.  `check_lockfile`: a marker strictly older than the 30-minute
threshold is removed and acquisition may proceed; a marker strictly younger
is left in place, the check reports refusal, and the supervisor run aborts
with the "already running" exit code; no marker lets acquisition proceed. -/
theorem check_lockfile_spec (now : Nat) (st : LockState) (o : RunOutcome) :
    (∀ m, st.lockMtime = some m → LOCKFILE_STALE_MINUTES * 60 < now - m →
      check_lockfile now st = (true, ⟨none⟩)) ∧
    (∀ m, st.lockMtime = some m → now - m < LOCKFILE_STALE_MINUTES * 60 →
      check_lockfile now st = (false, st) ∧
        (supervisorMain now o st).1 = EXIT_CONFIG_ERROR) ∧
    (st.lockMtime = none → check_lockfile now st = (true, st)) := by
  rcases st with ⟨mt⟩
  refine ⟨?_, ?_, ?_⟩
  · intro m hm hold
    replace hm : mt = some m := hm
    subst hm
    rw [check_lockfile_some]
    rw [if_pos (by unfold LOCKFILE_STALE_MINUTES at hold ⊢; omega)]
  · intro m hm hyoung
    replace hm : mt = some m := hm
    subst hm
    have hcheck : check_lockfile now ⟨some m⟩ = (false, ⟨some m⟩) := by
      rw [check_lockfile_some]
      rw [if_neg (by unfold LOCKFILE_STALE_MINUTES at hyoung ⊢; omega)]
    refine ⟨hcheck, ?_⟩
    unfold supervisorMain
    rw [hcheck]
    rfl
  · intro hm
    replace hm : mt = none := hm
    subst hm
    exact check_lockfile_none now

/-- C8, witness: a 45-minute-old marker (2700 s) is reclaimed, a
10-minute-old one (600 s) refuses acquisition and aborts the run. -/
theorem check_lockfile_spec_witness :
    check_lockfile 3000 ⟨some 300⟩ = (true, ⟨none⟩) ∧
    check_lockfile 3000 ⟨some 2400⟩ = (false, ⟨some 2400⟩) ∧
    (supervisorMain 3000 oAllOk ⟨some 2400⟩).1 = EXIT_CONFIG_ERROR ∧
    check_lockfile 3000 ⟨none⟩ = (true, ⟨none⟩) :=
  ⟨(check_lockfile_spec 3000 ⟨some 300⟩ oAllOk).1 300 rfl (by decide),
   ((check_lockfile_spec 3000 ⟨some 2400⟩ oAllOk).2.1 2400 rfl (by decide)).1,
   ((check_lockfile_spec 3000 ⟨some 2400⟩ oAllOk).2.1 2400 rfl (by decide)).2,
   (check_lockfile_spec 3000 ⟨none⟩ oAllOk).2.2 rfl⟩

/-- C9.  Whenever the rebase step fails (all earlier git steps having
succeeded), `perform_git_operations` aborts the rebase, pushes nothing,
reports failure, and leaves the step-7 commit of generated content in place;
the supervisor surfaces this as `EXIT_GIT_FAILURE = 3`, distinct from the
success, configuration-error and pipeline-failure codes. -/
theorem rebase_conflict_aborts_sync (e : GitEnv) (now : Nat)
    (h1 : e.isRepo = true) (h2 : e.configUserOk = true) (h3 : e.configEmailOk = true)
    (h4 : e.remoteOk = true) (h5 : e.hasChanges = true) (h6 : e.commitOk = true)
    (h7 : e.fetchOk = true) (h8 : e.rebaseOk = false) :
    perform_git_operations e = ⟨false, true, true, true, true, false⟩ ∧
    (supervisorMain now ⟨true, true, e⟩ ⟨none⟩).1 = EXIT_GIT_FAILURE ∧
    EXIT_GIT_FAILURE ≠ EXIT_SUCCESS ∧ EXIT_GIT_FAILURE ≠ EXIT_CONFIG_ERROR ∧
    EXIT_GIT_FAILURE ≠ EXIT_SCRIPT_FAILURE := by
  have hgit : perform_git_operations e = ⟨false, true, true, true, true, false⟩ := by
    unfold perform_git_operations
    rw [h1, h2, h3, h4, h5, h6, h7, h8]
    rfl
  refine ⟨hgit, ?_, by decide, by decide, by decide⟩
  unfold supervisorMain
  rw [show check_lockfile now ⟨none⟩ = (true, ⟨none⟩) from rfl]
  simp [hgit]

/-- C9, witness at the concrete environment `eRebaseFail`. -/
theorem rebase_conflict_aborts_sync_witness :
    perform_git_operations eRebaseFail = ⟨false, true, true, true, true, false⟩ ∧
    (supervisorMain 0 ⟨true, true, eRebaseFail⟩ ⟨none⟩).1 = EXIT_GIT_FAILURE ∧
    EXIT_GIT_FAILURE ≠ EXIT_SUCCESS ∧ EXIT_GIT_FAILURE ≠ EXIT_CONFIG_ERROR ∧
    EXIT_GIT_FAILURE ≠ EXIT_SCRIPT_FAILURE :=
  rebase_conflict_aborts_sync eRebaseFail 0 rfl rfl rfl rfl rfl rfl rfl rfl

/-- C10, counterexample.  On `c10input` the sanitized output still contains a
tab (only the space character is collapsed to a hyphen, not all whitespace)
and ends in a hyphen (the strip runs before the `[:100]` truncation, which
can re-expose a trailing hyphen) — two conjuncts of the claim fail. -/
theorem sanitize_filename_cex :
    '\t' ∈ (sanitize_filename c10input).data ∧
    Char.isWhitespace '\t' = true ∧ ('\t' : Char) ≠ '-' ∧
    (sanitize_filename c10input).data.getLast? = some '-' := by
  refine ⟨by decide, by decide, by decide, by decide⟩

/-- C10, amended.  For every input, the sanitized output contains none of the
characters `<>:"/\|?*`, contains no space character (spaces become hyphens;
other whitespace is kept), has no two consecutive hyphens, no leading hyphen,
and length at most 100; and whenever the pre-truncation string already fits
in 100 characters, it has no trailing hyphen either. -/
theorem sanitize_filename_guarantees (s : String) :
    (∀ c ∈ (sanitize_filename s).data, c ∉ invalidChars) ∧
    (∀ c ∈ (sanitize_filename s).data, c ≠ ' ') ∧
    NoHyphenRun (sanitize_filename s).data ∧
    (∀ c, (sanitize_filename s).data.head? = some c → c ≠ '-') ∧
    (sanitize_filename s).length ≤ 100 ∧
    ((stripHyphens (collapseHyphens (spacesToHyphens (removeInvalid s.data)))).length ≤ 100 →
      ∀ c, (sanitize_filename s).data.getLast? = some c → c ≠ '-') := by
  refine ⟨?_, ?_, sanitize_noRun s, ?_, sanitize_length_le s, ?_⟩
  · intro c hc
    exact sanitize_no_invalid hc
  · intro c hc
    exact sanitize_no_space hc
  · intro c hc
    exact sanitize_head_ne hc
  · intro hshort c hc
    exact sanitize_last_ne hshort hc

/-- C10, witness on the spec's example input. -/
theorem sanitize_filename_guarantees_witness :
    sanitize_filename exC10 = "Which-Trend-Today" ∧
    NoHyphenRun (sanitize_filename exC10).data ∧ ('y' : Char) ≠ '-' :=
  ⟨by decide, (sanitize_filename_guarantees exC10).2.2.1,
   (sanitize_filename_guarantees exC10).2.2.2.2.2 (by decide) 'y' (by decide)⟩

end TrendsStory
